import Mathlib

/-!
Verification development for mod_prometheus (src/mod_prometheus.rs).

The module keeps a fixed bank of built-in Prometheus counters and gauges,
updates them from FreeSWITCH channel/registration events, and additionally
maintains two lazily-populated stores of user-defined counters and gauges
driven by the prom_counter_increment / prom_gauge_* commands.

Shallow embedding conventions:
* Metric values carried by counters are exact rationals (the Rust code uses
  f64; every counter mutation in this module adds a parsed finite value, so
  rationals model it exactly up to rounding, which no statement here
  depends on).
* Gauge values use the type F64 below, which carries the non-finite f64
  results (+inf, -inf, NaN) that unguarded divisions can produce; the
  division of two finite f64 values is modelled exactly on rationals.
* Stateful code becomes explicit state passing on the ModState record;
  each event handler and API command is a pure state transformer that also
  returns the log levels it emitted and (for APIs) the stream writes.
* The Rust code guards every user-store operation with the store's mutex
  for the whole check-create-register-insert sequence (lines 489-498 and
  504-515), so each such operation is one atomic transition here.
-/

/-- Model of the set of f64 values a gauge can hold in this module: a finite
value (exact rational) or one of the non-finite IEEE values that an
unguarded division can produce. -/
inductive F64 where
  | fin (q : ℚ)
  | pinf
  | ninf
  | nan
deriving DecidableEq

namespace F64

/-- IEEE f64 negation on the modelled values. -/
def neg : F64 → F64
  | fin q => fin (-q)
  | pinf => ninf
  | ninf => pinf
  | nan => nan

/-- IEEE f64 addition on the modelled values (exact on finite operands;
rounding is not modelled). -/
def add : F64 → F64 → F64
  | nan, _ => nan
  | _, nan => nan
  | pinf, ninf => nan
  | ninf, pinf => nan
  | pinf, _ => pinf
  | _, pinf => pinf
  | ninf, _ => ninf
  | _, ninf => ninf
  | fin a, fin b => fin (a + b)

/-- IEEE f64 subtraction on the modelled values. -/
def sub (a b : F64) : F64 := add a (neg b)

end F64

/-- Division of two finite f64 values (as produced by `Counter::value()`),
with the IEEE behaviour on a zero denominator: 0/0 is NaN, x/0 with x > 0 is
+inf, x/0 with x < 0 is -inf.  Finite quotients are exact rationals. -/
def fdivQ (a b : ℚ) : F64 :=
  if b = 0 then
    if a = 0 then F64.nan else if 0 < a then F64.pinf else F64.ninf
  else F64.fin (a / b)

/-- Rust `as u64` conversion applied to a non-negative f64 counter value:
truncation toward zero (for negative inputs the cast saturates to 0, which
floor-then-toNat also gives; saturation at 2^64 is not modelled, nothing
here reaches it). -/
def ratToU64 (q : ℚ) : ℕ := (Int.floor q).toNat

/-- Digit accumulator for the decimal parsers. -/
def natOfDigits (cs : List Char) : ℕ :=
  cs.foldl (fun a c => 10 * a + (c.toNat - 48)) 0

/-- The components of a finite decimal f64 literal: sign, integer-part
digits value, fraction digits value, number of fraction digits, exponent. -/
structure DecParts where
  neg : Bool
  ip : ℕ
  fp : ℕ
  fplen : ℕ
  exp : ℤ
deriving DecidableEq

/-- Mantissa of a decimal literal: digits with an optional fraction part,
digits required on at least one side of the dot. -/
def parseMantissa (cs : List Char) : Option (ℕ × ℕ × ℕ) :=
  match cs.splitOn '.' with
  | [ip] =>
    if ip ≠ [] ∧ ip.all Char.isDigit then some (natOfDigits ip, 0, 0) else none
  | [ip, fp] =>
    if (ip ++ fp) ≠ [] ∧ (ip ++ fp).all Char.isDigit then
      some (natOfDigits ip, natOfDigits fp, fp.length)
    else none
  | _ => none

/-- Sign prefix of a decimal literal. -/
def takeSign : List Char → Bool × List Char
  | '+' :: r => (false, r)
  | '-' :: r => (true, r)
  | r => (false, r)

/-- Exponent part of a decimal f64 literal: optional sign, then digits. -/
def parseExpPart (cs : List Char) : Option ℤ :=
  let (isNeg, r) := takeSign cs
  if r ≠ [] ∧ r.all Char.isDigit then
    some (if isNeg then -(natOfDigits r : ℤ) else (natOfDigits r : ℤ))
  else none

/-- Split a character list at the first character satisfying p, dropping
that character; returns none for the second component when p never holds. -/
def splitAtChar (p : Char → Bool) : List Char → List Char × Option (List Char)
  | [] => ([], none)
  | c :: r =>
    if p c then ([], some r)
    else
      let (a, b) := splitAtChar p r
      (c :: a, b)

/-- Modelled from the spec: parsing of the optional second command token as
a decimal value (Rust `str::parse::<f64>`, which is library code outside
this repository).  Grammar: optional sign, digits with an optional
fraction part (digits required on at least one side of the dot), optional
decimal exponent.  This stage extracts the numeric components; it is kept
separate from the rational assembly so concrete runs are decidable. -/
def parseDecParts (s : String) : Option DecParts :=
  let (isNeg, cs) := takeSign s.data
  match splitAtChar (fun c => c = 'e' ∨ c = 'E') cs with
  | (m, none) =>
    (parseMantissa m).map (fun p => ⟨isNeg, p.1, p.2.1, p.2.2, 0⟩)
  | (m, some ecs) =>
    match parseMantissa m, parseExpPart ecs with
    | some p, some z => some ⟨isNeg, p.1, p.2.1, p.2.2, z⟩
    | _, _ => none

/-- The rational value denoted by a parsed decimal literal. -/
def DecParts.toRat (p : DecParts) : ℚ :=
  (if p.neg then -1 else 1) * ((p.ip : ℚ) + (p.fp : ℚ) / (10 : ℚ) ^ p.fplen) * (10 : ℚ) ^ p.exp

/-- Modelled from the spec: the decimal value of a command token (the
model of `str::parse::<f64>`).  The non-finite spellings (inf/NaN)
accepted by Rust are outside the spec's "decimal value" wording and are
not modelled; values are exact rationals (f64 rounding is not
modelled). -/
def parseDecF64 (s : String) : Option ℚ :=
  (parseDecParts s).map DecParts.toRat

/-- Modelled from the spec: Rust `str::parse::<i64>` (library code outside
this repository) restricted to what the hangup handler needs: optional
sign, then decimal digits.  The i64 overflow failure is not modelled. -/
def parseI64 (s : String) : Option ℤ :=
  match s.data with
  | '+' :: r =>
    if r ≠ [] ∧ r.all Char.isDigit then some (natOfDigits r : ℤ) else none
  | '-' :: r =>
    if r ≠ [] ∧ r.all Char.isDigit then some (-(natOfDigits r : ℤ)) else none
  | r =>
    if r ≠ [] ∧ r.all Char.isDigit then some (natOfDigits r : ℤ) else none

/-- Modelled from the spec: Rust `str::parse::<u64>` (library code outside
this repository): optional plus sign, then decimal digits; a minus sign is
a parse failure.  The u64 overflow failure is not modelled. -/
def parseU64 (s : String) : Option ℕ :=
  match s.data with
  | '+' :: r =>
    if r ≠ [] ∧ r.all Char.isDigit then some (natOfDigits r) else none
  | '-' :: _ => none
  | r =>
    if r ≠ [] ∧ r.all Char.isDigit then some (natOfDigits r) else none

/-- Rust `str::split(sep)` on a character list: the list of (possibly
empty) chunks between occurrences of the separator; always non-empty, and
a leading separator yields a leading empty chunk. -/
def splitChar (sep : Char) : List Char → List (List Char)
  | [] => [[]]
  | c :: rest =>
    let r := splitChar sep rest
    if c = sep then [] :: r
    else
      match r with
      | [] => [[c]]
      | h :: t => (c :: h) :: t

/-- Rust `cmdstr.split(' ').collect::<Vec<&str>>()` (line 460): split on
single space characters only. -/
def rsplit (s : String) : List String :=
  (splitChar ' ' s.data).map (fun l => ⟨l⟩)

example : rsplit "a b" = ["a", "b"] := by decide
example : rsplit "" = [""] := by decide
example : rsplit " x" = ["", "x"] := by decide
example : rsplit "a  3" = ["a", "", "3"] := by decide
example : parseDecParts "3.5" = some ⟨false, 3, 5, 1, 0⟩ := by decide
example : parseDecF64 "3.5" = some (7 / 2) := by
  rw [parseDecF64, show parseDecParts "3.5" = some ⟨false, 3, 5, 1, 0⟩ from by decide]
  norm_num [DecParts.toRat]
example : parseDecF64 "-3" = some (-3) := by
  rw [parseDecF64, show parseDecParts "-3" = some ⟨true, 3, 0, 0, 0⟩ from by decide]
  norm_num [DecParts.toRat]
example : parseDecF64 "" = none := by decide
example : parseDecF64 "abc" = none := by decide

/-! Events and logging. -/

/-- A FreeSWITCH event as far as this module reads it: a header map.  The
body is only used in log messages and is not modelled. -/
structure Event where
  headers : List (String × String)
deriving DecidableEq

/-- Model of `e.header(name)` from freeswitchrs: first matching header. -/
def Event.header (e : Event) (k : String) : Option String :=
  (e.headers.find? (fun p => p.1 == k)).map Prod.snd

/-- Log levels used by the handlers via fslog; message text is abstracted
away, only the level sequence is kept. -/
inductive LogLevel where
  | debug
  | info
  | notice
  | warning
  | error
deriving DecidableEq

/-! The metric state. -/

/-- Values of the 20 built-in counters (COUNTERS global, lines 84-156),
one field per FSCounter variant.  Name and help strings are fixed in the
source and tracked by initRegCounters below. -/
structure BuiltinCounters where
  heartbeats : ℚ
  sessionsCreated : ℚ
  sessionsDestroyed : ℚ
  sessionsAnswered : ℚ
  sessionsFailed : ℚ
  sessionsInboundCreated : ℚ
  sessionsInboundAnswered : ℚ
  sessionsInboundFailed : ℚ
  sessionsOutboundCreated : ℚ
  sessionsOutboundAnswered : ℚ
  sessionsOutboundFailed : ℚ
  registrations : ℚ
  registrationAttempts : ℚ
  registrationFailures : ℚ
  sessionsOutboundCallDurationTotal : ℚ
  sessionsOutboundCallHangup : ℚ
  sessionsOutboundCallHangupComplete : ℚ
  sessionsInboundCallDurationTotal : ℚ
  sessionsInboundCallHangup : ℚ
  sessionsInboundCallHangupComplete : ℚ
deriving DecidableEq

/-- Values of the 7 built-in gauges (GAUGES global, lines 157-179), one
field per FSGauge variant. -/
structure BuiltinGauges where
  sessionsActiveInbound : F64
  sessionsActiveOutbound : F64
  sessionsOutboundASR : F64
  registrationsActive : F64
  sessionsOutboundACD : F64
  sessionsInboundACD : F64
  sessionsInboundASR : F64
deriving DecidableEq

/-- A user-created counter (prometheus::Counter): name, help, value. -/
structure UCounter where
  name : String
  help : String
  value : ℚ
deriving DecidableEq

/-- A user-created gauge (prometheus::Gauge): name, help, value. -/
structure UGauge where
  name : String
  help : String
  value : F64
deriving DecidableEq

/-- The whole mutable state of the module: built-in metric values, the two
user stores (USER_COUNTERS / USER_GAUGES hash maps, modelled as
association lists with first-match lookup), and the Metric Registry's
membership lists (the sequences of names passed to register_counter /
register_gauge). -/
structure ModState where
  counters : BuiltinCounters
  gauges : BuiltinGauges
  userCounters : List (String × UCounter)
  userGauges : List (String × UGauge)
  regCounters : List String
  regGauges : List String
deriving DecidableEq

/-- The built-in counter names, in COUNTERS order, registered at load
(lines 220-223). -/
def initRegCounters : List String :=
  ["freeswitch_heartbeats_total",
   "freeswitch_sessions_created_total",
   "freeswitch_sessions_destroyed_total",
   "freeswitch_sessions_answered_total",
   "freeswitch_sessions_failed_total",
   "freeswitch_sessions_inbound_total",
   "freeswitch_sessions_inbound_answered_total",
   "freeswitch_sessions_inbound_failed_total",
   "freeswitch_sessions_outbound_total",
   "freeswitch_sessions_outbound_answered_total",
   "freeswitch_sessions_outbound_failed_total",
   "freeswitch_registrations_total",
   "freeswitch_registration_attempts_total",
   "freeswitch_registration_failures_total",
   "freeswitch_sessions_outbound_duration_total",
   "freeswitch_sessions_outbound_hangup",
   "freeswitch_sessions_outbound_hangup_complete",
   "freeswitch_sessions_inbound_duration_total",
   "freeswitch_sessions_inbound_hangup",
   "freeswitch_sessions_inbound_hangup_complete"]

/-- The built-in gauge names, in GAUGES order, registered at load
(lines 224-226). -/
def initRegGauges : List String :=
  ["freeswitch_sessions_active_inbound",
   "freeswitch_sessions_active_outbound",
   "freeswitch_outbound_asr",
   "freeswitch_registrations_active",
   "freeswitch_outbound_acd",
   "freeswitch_inbound_acd",
   "freeswitch_inbound_asr"]

/-- The state right after prometheus_load: all metric values zero, user
stores empty, every built-in metric registered once. -/
def initState : ModState where
  counters := ⟨0, 0, 0, 0, 0, 0, 0, 0, 0, 0, 0, 0, 0, 0, 0, 0, 0, 0, 0, 0⟩
  gauges := ⟨F64.fin 0, F64.fin 0, F64.fin 0, F64.fin 0, F64.fin 0, F64.fin 0, F64.fin 0⟩
  userCounters := []
  userGauges := []
  regCounters := initRegCounters
  regGauges := initRegGauges

/-! Event handlers (prometheus_load closures).  Each handler takes the
current state and the delivered event and returns the new state together
with the levels of the log lines it emitted. -/

/-- HEARTBEAT handler (lines 229-231). -/
def heartbeatHandler (st : ModState) : ModState :=
  { st with counters := { st.counters with heartbeats := st.counters.heartbeats + 1 } }

/-- CHANNEL_CREATE handler (lines 235-255). -/
def chanCreate (st : ModState) (e : Event) : ModState × List LogLevel :=
  let st := { st with counters := { st.counters with sessionsCreated := st.counters.sessionsCreated + 1 } }
  match e.header "Call-Direction" with
  | some direction =>
    if direction = "inbound" then
      let st := { st with gauges := { st.gauges with
        sessionsActiveInbound := F64.add st.gauges.sessionsActiveInbound (F64.fin 1) } }
      let st := { st with counters := { st.counters with
        sessionsInboundCreated := st.counters.sessionsInboundCreated + 1 } }
      let total := st.counters.sessionsInboundCreated
      let asr := fdivQ st.counters.sessionsInboundAnswered total
      ({ st with gauges := { st.gauges with sessionsInboundASR := asr } }, [])
    else if direction = "outbound" then
      let st := { st with gauges := { st.gauges with
        sessionsActiveOutbound := F64.add st.gauges.sessionsActiveOutbound (F64.fin 1) } }
      let st := { st with counters := { st.counters with
        sessionsOutboundCreated := st.counters.sessionsOutboundCreated + 1 } }
      let total := st.counters.sessionsOutboundCreated
      let asr := fdivQ st.counters.sessionsOutboundAnswered total
      ({ st with gauges := { st.gauges with sessionsOutboundASR := asr } }, [])
    else (st, [])
  | none => (st, [LogLevel.warning])

/-- CHANNEL_ANSWER handler (lines 259-277). -/
def chanAnswer (st : ModState) (e : Event) : ModState × List LogLevel :=
  let st := { st with counters := { st.counters with sessionsAnswered := st.counters.sessionsAnswered + 1 } }
  match e.header "Call-Direction" with
  | some direction =>
    if direction = "inbound" then
      let st := { st with counters := { st.counters with
        sessionsInboundAnswered := st.counters.sessionsInboundAnswered + 1 } }
      let answered := st.counters.sessionsInboundAnswered
      let asr := fdivQ answered st.counters.sessionsInboundCreated
      ({ st with gauges := { st.gauges with sessionsInboundASR := asr } }, [])
    else if direction = "outbound" then
      let st := { st with counters := { st.counters with
        sessionsOutboundAnswered := st.counters.sessionsOutboundAnswered + 1 } }
      let answered := st.counters.sessionsOutboundAnswered
      let asr := fdivQ answered st.counters.sessionsOutboundCreated
      ({ st with gauges := { st.gauges with sessionsOutboundASR := asr } }, [])
    else (st, [])
  | none => (st, [LogLevel.warning])

/-- CHANNEL_HANGUP handler (lines 281-314).  Note the first block's else
branch: any present direction other than "inbound" increments the
outbound hangup counter. -/
def chanHangup (st : ModState) (e : Event) : ModState × List LogLevel :=
  let st :=
    match e.header "Call-Direction" with
    | some direction =>
      if direction = "inbound" then
        { st with counters := { st.counters with
          sessionsInboundCallHangup := st.counters.sessionsInboundCallHangup + 1 } }
      else
        { st with counters := { st.counters with
          sessionsOutboundCallHangup := st.counters.sessionsOutboundCallHangup + 1 } }
    | none => st
  match e.header "Caller-Channel-Answered-Time" with
  | some answerTimestamp =>
    match parseI64 answerTimestamp with
    | some myts =>
      if myts = 0 then
        match e.header "Call-Direction" with
        | some direction =>
          let (st, logs) :=
            if direction = "inbound" then
              ({ st with counters := { st.counters with
                 sessionsInboundFailed := st.counters.sessionsInboundFailed + 1 } }, ([] : List LogLevel))
            else if direction = "outbound" then
              ({ st with counters := { st.counters with
                 sessionsOutboundFailed := st.counters.sessionsOutboundFailed + 1 } }, [])
            else (st, [LogLevel.warning])
          ({ st with counters := { st.counters with
             sessionsFailed := st.counters.sessionsFailed + 1 } }, logs)
        | none => (st, [LogLevel.warning])
      else (st, [])
    | none => (st, [])
  | none => (st, [LogLevel.warning])

/-- CHANNEL_HANGUP_COMPLETE handler (lines 318-382).  The callid and
uniqueId headers are read only for logging and are not part of the state
transition; `direction` defaults to the empty string when the header is
absent. -/
def chanHangupComplete (st : ModState) (e : Event) : ModState × List LogLevel :=
  let direction := (e.header "Call-Direction").getD ""
  match e.header "Hangup-Cause" with
  | some hupCause =>
    if hupCause = "NORMAL_CLEARING" then
      match e.header "variable_billsec" with
      | some billsecvar =>
        match parseU64 billsecvar with
        | some billSeconds =>
          if direction = "outbound" then
            let st := { st with counters := { st.counters with
              sessionsOutboundCallDurationTotal :=
                st.counters.sessionsOutboundCallDurationTotal + (billSeconds : ℚ) } }
            let st := { st with counters := { st.counters with
              sessionsOutboundCallHangupComplete :=
                st.counters.sessionsOutboundCallHangupComplete + 1 } }
            let totalSeconds : ℕ := ratToU64 st.counters.sessionsOutboundCallDurationTotal
            let totalHup : ℕ := ratToU64 st.counters.sessionsOutboundCallHangupComplete
            let acdOut : ℕ := totalSeconds / totalHup
            ({ st with gauges := { st.gauges with sessionsOutboundACD := F64.fin (acdOut : ℚ) } },
             [LogLevel.info, LogLevel.notice, LogLevel.notice])
          else if direction = "inbound" then
            let st := { st with counters := { st.counters with
              sessionsInboundCallDurationTotal :=
                st.counters.sessionsInboundCallDurationTotal + (billSeconds : ℚ) } }
            let st := { st with counters := { st.counters with
              sessionsInboundCallHangupComplete :=
                st.counters.sessionsInboundCallHangupComplete + 1 } }
            let totalSeconds : ℕ := ratToU64 st.counters.sessionsInboundCallDurationTotal
            let totalHup : ℕ := ratToU64 st.counters.sessionsInboundCallHangupComplete
            let acdIn : ℕ := totalSeconds / totalHup
            ({ st with gauges := { st.gauges with sessionsInboundACD := F64.fin (acdIn : ℚ) } },
             [LogLevel.info, LogLevel.notice, LogLevel.notice])
          else (st, [LogLevel.info, LogLevel.notice])
        | none => (st, [LogLevel.info, LogLevel.notice, LogLevel.error])
      | none => (st, [LogLevel.info, LogLevel.notice, LogLevel.error])
    else (st, [LogLevel.info, LogLevel.notice])
  | none => (st, [LogLevel.info, LogLevel.error])

/-- CHANNEL_DESTROY handler (lines 386-395). -/
def chanDestroy (st : ModState) (e : Event) : ModState :=
  let st := { st with counters := { st.counters with
    sessionsDestroyed := st.counters.sessionsDestroyed + 1 } }
  match e.header "Call-Direction" with
  | some direction =>
    if direction = "inbound" then
      { st with gauges := { st.gauges with
        sessionsActiveInbound := F64.sub st.gauges.sessionsActiveInbound (F64.fin 1) } }
    else if direction = "outbound" then
      { st with gauges := { st.gauges with
        sessionsActiveOutbound := F64.sub st.gauges.sessionsActiveOutbound (F64.fin 1) } }
    else st
  | none => st

/-- sofia::register_attempt handler (lines 402-404). -/
def regAttemptHandler (st : ModState) : ModState :=
  { st with counters := { st.counters with
    registrationAttempts := st.counters.registrationAttempts + 1 } }

/-- sofia::register_failure handler (lines 408-410). -/
def regFailureHandler (st : ModState) : ModState :=
  { st with counters := { st.counters with
    registrationFailures := st.counters.registrationFailures + 1 } }

/-- sofia::register handler (lines 414-417). -/
def regSuccessHandler (st : ModState) : ModState :=
  let st := { st with counters := { st.counters with
    registrations := st.counters.registrations + 1 } }
  { st with gauges := { st.gauges with
    registrationsActive := F64.add st.gauges.registrationsActive (F64.fin 1) } }

/-- sofia::unregister and sofia::expire handlers (lines 420-428). -/
def unregisterHandler (st : ModState) : ModState :=
  { st with gauges := { st.gauges with
    registrationsActive := F64.sub st.gauges.registrationsActive (F64.fin 1) } }

/-! API commands. -/

/-- What an API command writes back to its caller's stream.  The actual
strings are "Invalid arguments", "Invalid metric value" and a formatted
"+OK <value>"; the value is kept unformatted here. -/
inductive ApiWrite where
  | invalidArgs
  | invalidValue
  | ok (v : F64)
deriving DecidableEq

/-- The switch_status_t values an API callback returns here. -/
inductive FsStatus where
  | success
  | fail
deriving DecidableEq

/-- parse_metric_api_args (lines 447-476).  The raw C string pointer is
modelled as Option String (none for a null pointer).  Returns the parsed
(name, value) pair, or none together with the error write the function
performed.  The split is on single space characters; a missing second
token defaults the value to 1. -/
def parse_metric_api_args (cmd : Option String) : Option (String × ℚ) × List ApiWrite :=
  match cmd with
  | none => (none, [ApiWrite.invalidArgs])
  | some cmdstr =>
    match rsplit cmdstr with
    | [] => (none, [ApiWrite.invalidArgs])
    | [name] => (some (name, 1), [])
    | name :: v :: _ =>
      match parseDecF64 v with
      | some q => (some (name, q), [])
      | none => (none, [ApiWrite.invalidValue])

/-- Replace the value of the first entry with the given key (the model of
mutating the metric instance shared between the store and the registry). -/
def updateUC (name : String) (v : ℚ) : List (String × UCounter) → List (String × UCounter)
  | [] => []
  | (k, c) :: r =>
    if k = name then (k, { c with value := v }) :: r else (k, c) :: updateUC name v r

/-- Gauge-store version of updateUC. -/
def updateUG (name : String) (v : F64) : List (String × UGauge) → List (String × UGauge)
  | [] => []
  | (k, g) :: r =>
    if k = name then (k, { g with value := v }) :: r else (k, g) :: updateUG name v r

/-- The body of the critical section of counter_increment_api (lines
489-497): look the name up in USER_COUNTERS and, when absent, create a
zero-valued counter with the name as both name and help text, insert it
into the store and register it in the Metric Registry.  Returns the
counter the store now holds for the name. -/
def get_or_create_counter (name : String) (st : ModState) : UCounter × ModState :=
  match List.lookup name st.userCounters with
  | some c => (c, st)
  | none =>
    let c : UCounter := ⟨name, name, 0⟩
    (c, { st with
          userCounters := (name, c) :: st.userCounters,
          regCounters := st.regCounters ++ [name] })

/-- gauge_get (lines 504-515): the gauge-store get-or-create. -/
def gauge_get (name : String) (st : ModState) : UGauge × ModState :=
  match List.lookup name st.userGauges with
  | some g => (g, st)
  | none =>
    let g : UGauge := ⟨name, name, F64.fin 0⟩
    (g, { st with
          userGauges := (name, g) :: st.userGauges,
          regGauges := st.regGauges ++ [name] })

/-- counter_increment_api (lines 479-502): parse, get-or-create, then
increment the stored counter by the parsed value and report the new
value. -/
def counter_increment_api (cmd : Option String) (st : ModState) :
    ModState × FsStatus × List ApiWrite :=
  match parse_metric_api_args cmd with
  | (none, ws) => (st, FsStatus.fail, ws)
  | (some (name, val), ws) =>
    let (c, st) := get_or_create_counter name st
    let v := c.value + val
    let st := { st with userCounters := updateUC name v st.userCounters }
    (st, FsStatus.success, ws ++ [ApiWrite.ok (F64.fin v)])

/-- gauge_set_api (lines 518-532). -/
def gauge_set_api (cmd : Option String) (st : ModState) :
    ModState × FsStatus × List ApiWrite :=
  match parse_metric_api_args cmd with
  | (none, ws) => (st, FsStatus.fail, ws)
  | (some (name, val), ws) =>
    let (g, st) := gauge_get name st
    let v := F64.fin val
    let st := { st with userGauges := updateUG name v st.userGauges }
    (st, FsStatus.success, ws ++ [ApiWrite.ok v])

/-- gauge_increment_api (lines 535-549). -/
def gauge_increment_api (cmd : Option String) (st : ModState) :
    ModState × FsStatus × List ApiWrite :=
  match parse_metric_api_args cmd with
  | (none, ws) => (st, FsStatus.fail, ws)
  | (some (name, val), ws) =>
    let (g, st) := gauge_get name st
    let v := F64.add g.value (F64.fin val)
    let st := { st with userGauges := updateUG name v st.userGauges }
    (st, FsStatus.success, ws ++ [ApiWrite.ok v])

/-- gauge_decrement_api (lines 552-566). -/
def gauge_decrement_api (cmd : Option String) (st : ModState) :
    ModState × FsStatus × List ApiWrite :=
  match parse_metric_api_args cmd with
  | (none, ws) => (st, FsStatus.fail, ws)
  | (some (name, val), ws) =>
    let (g, st) := gauge_get name st
    let v := F64.sub g.value (F64.fin val)
    let st := { st with userGauges := updateUG name v st.userGauges }
    (st, FsStatus.success, ws ++ [ApiWrite.ok v])

/-- gauge_increment_app (lines 569-578): the dialplan application; parse
errors are only logged (no stream), success increments the gauge. -/
def gauge_increment_app (data : Option String) (st : ModState) : ModState :=
  match parse_metric_api_args data with
  | (none, _) => st
  | (some (name, val), _) =>
    let (g, st) := gauge_get name st
    let v := F64.add g.value (F64.fin val)
    { st with userGauges := updateUG name v st.userGauges }

/-! The program's interface as a transition system. -/

/-- One observable operation of the module: delivery of any event to one
of the bound handlers, or an invocation of one of the exposed commands
with any argument string (or a null pointer). -/
inductive Step : ModState → ModState → Prop
  | heartbeat (st : ModState) : Step st (heartbeatHandler st)
  | create (st : ModState) (e : Event) : Step st (chanCreate st e).1
  | answer (st : ModState) (e : Event) : Step st (chanAnswer st e).1
  | hangup (st : ModState) (e : Event) : Step st (chanHangup st e).1
  | hangupComplete (st : ModState) (e : Event) : Step st (chanHangupComplete st e).1
  | destroy (st : ModState) (e : Event) : Step st (chanDestroy st e)
  | regAttempt (st : ModState) : Step st (regAttemptHandler st)
  | regFailure (st : ModState) : Step st (regFailureHandler st)
  | regSuccess (st : ModState) : Step st (regSuccessHandler st)
  | unregister (st : ModState) : Step st (unregisterHandler st)
  | counterInc (st : ModState) (cmd : Option String) :
      Step st (counter_increment_api cmd st).1
  | gaugeSet (st : ModState) (cmd : Option String) :
      Step st (gauge_set_api cmd st).1
  | gaugeInc (st : ModState) (cmd : Option String) :
      Step st (gauge_increment_api cmd st).1
  | gaugeDec (st : ModState) (cmd : Option String) :
      Step st (gauge_decrement_api cmd st).1
  | gaugeIncApp (st : ModState) (data : Option String) :
      Step st (gauge_increment_app data st)

/-- States reachable from the post-load state through the module's
interfaces. -/
def Reachable (st : ModState) : Prop :=
  Relation.ReflTransGen Step initState st

/-! Properties of the dynamic metric store (claim C1). -/

/-- State part of an iterated counter get-or-create on one name. -/
def gocCounterIter (name : String) : ℕ → ModState → ModState
  | 0, st => st
  | k + 1, st => gocCounterIter name k (get_or_create_counter name st).2

/-- State part of an iterated gauge get-or-create on one name. -/
def gocGaugeIter (name : String) : ℕ → ModState → ModState
  | 0, st => st
  | k + 1, st => gocGaugeIter name k (gauge_get name st).2

theorem goc_counter_of_some {st : ModState} {name : String} {c : UCounter}
    (h : List.lookup name st.userCounters = some c) :
    get_or_create_counter name st = (c, st) := by
  simp [get_or_create_counter, h]

theorem goc_counter_of_none {st : ModState} {name : String}
    (h : List.lookup name st.userCounters = none) :
    get_or_create_counter name st =
      (⟨name, name, 0⟩,
       { st with userCounters := (name, ⟨name, name, 0⟩) :: st.userCounters,
                 regCounters := st.regCounters ++ [name] }) := by
  simp [get_or_create_counter, h]

theorem goc_gauge_of_some {st : ModState} {name : String} {g : UGauge}
    (h : List.lookup name st.userGauges = some g) :
    gauge_get name st = (g, st) := by
  simp [gauge_get, h]

theorem goc_gauge_of_none {st : ModState} {name : String}
    (h : List.lookup name st.userGauges = none) :
    gauge_get name st =
      (⟨name, name, F64.fin 0⟩,
       { st with userGauges := (name, ⟨name, name, F64.fin 0⟩) :: st.userGauges,
                 regGauges := st.regGauges ++ [name] }) := by
  simp [gauge_get, h]

theorem gocCounterIter_of_some {st : ModState} {name : String} {c : UCounter}
    (h : List.lookup name st.userCounters = some c) :
    ∀ k, gocCounterIter name k st = st := by
  intro k
  induction k with
  | zero => rfl
  | succ k ih => simp [gocCounterIter, goc_counter_of_some h, ih]

theorem gocGaugeIter_of_some {st : ModState} {name : String} {g : UGauge}
    (h : List.lookup name st.userGauges = some g) :
    ∀ k, gocGaugeIter name k st = st := by
  intro k
  induction k with
  | zero => rfl
  | succ k ih => simp [gocGaugeIter, goc_gauge_of_some h, ih]

theorem gocCounterIter_count {st : ModState} {name : String}
    (h : List.lookup name st.userCounters = none) (k : ℕ) (hk : 1 ≤ k) :
    (gocCounterIter name k st).regCounters.count name =
      st.regCounters.count name + 1 := by
  obtain ⟨k, rfl⟩ : ∃ m, k = m + 1 := ⟨k - 1, (Nat.succ_pred_eq_of_pos hk).symm⟩
  rw [gocCounterIter, goc_counter_of_none h]
  rw [gocCounterIter_of_some (c := ⟨name, name, 0⟩) (by simp [List.lookup])]
  simp [List.count_append]

theorem gocGaugeIter_count {st : ModState} {name : String}
    (h : List.lookup name st.userGauges = none) (k : ℕ) (hk : 1 ≤ k) :
    (gocGaugeIter name k st).regGauges.count name =
      st.regGauges.count name + 1 := by
  obtain ⟨k, rfl⟩ : ∃ m, k = m + 1 := ⟨k - 1, (Nat.succ_pred_eq_of_pos hk).symm⟩
  rw [gocGaugeIter, goc_gauge_of_none h]
  rw [gocGaugeIter_of_some (g := ⟨name, name, F64.fin 0⟩) (by simp [List.lookup])]
  simp [List.count_append]

/-- C1: for every name the dynamic store holds at most one Counter
(resp. Gauge): get-or-create returns the stored metric unchanged when the
name is present; otherwise it creates exactly one zero-valued metric with
the name as both name and help text, registers it in the Metric Registry,
inserts it in the store and returns it (the source holds the store's
mutex across the whole sequence, so it is one transition here); hence any
positive number of get-or-create calls for a fresh name adds exactly one
registry entry for it. -/
theorem C1_dynamic_store_get_or_create :
    (∀ (st : ModState) (name : String) (c : UCounter),
       List.lookup name st.userCounters = some c →
       get_or_create_counter name st = (c, st)) ∧
    (∀ (st : ModState) (name : String),
       List.lookup name st.userCounters = none →
       get_or_create_counter name st =
         (⟨name, name, 0⟩,
          { st with userCounters := (name, ⟨name, name, 0⟩) :: st.userCounters,
                    regCounters := st.regCounters ++ [name] })) ∧
    (∀ (st : ModState) (name : String) (k : ℕ),
       1 ≤ k → List.lookup name st.userCounters = none →
       (gocCounterIter name k st).regCounters.count name =
         st.regCounters.count name + 1) ∧
    (∀ (st : ModState) (name : String) (g : UGauge),
       List.lookup name st.userGauges = some g →
       gauge_get name st = (g, st)) ∧
    (∀ (st : ModState) (name : String),
       List.lookup name st.userGauges = none →
       gauge_get name st =
         (⟨name, name, F64.fin 0⟩,
          { st with userGauges := (name, ⟨name, name, F64.fin 0⟩) :: st.userGauges,
                    regGauges := st.regGauges ++ [name] })) ∧
    (∀ (st : ModState) (name : String) (k : ℕ),
       1 ≤ k → List.lookup name st.userGauges = none →
       (gocGaugeIter name k st).regGauges.count name =
         st.regGauges.count name + 1) :=
  ⟨fun _ _ _ h => goc_counter_of_some h,
   fun _ _ h => goc_counter_of_none h,
   fun _ _ k hk h => gocCounterIter_count h k hk,
   fun _ _ _ h => goc_gauge_of_some h,
   fun _ _ h => goc_gauge_of_none h,
   fun _ _ k hk h => gocGaugeIter_count h k hk⟩

/-- A state whose counter store already holds the name "m". -/
def c1PresentState : ModState :=
  { initState with userCounters := [("m", ⟨"m", "m", 4⟩)] }

/-- Witness for C1 at concrete inputs: a present name is returned as-is,
and three get-or-create calls on a fresh name add exactly one registry
entry (counter and gauge stores alike). -/
theorem C1_dynamic_store_get_or_create_witness :
    get_or_create_counter "m" c1PresentState = (⟨"m", "m", 4⟩, c1PresentState) ∧
    (gocCounterIter "m" 3 initState).regCounters.count "m" =
      initState.regCounters.count "m" + 1 ∧
    (gocGaugeIter "mg" 3 initState).regGauges.count "mg" =
      initState.regGauges.count "mg" + 1 :=
  ⟨C1_dynamic_store_get_or_create.1 c1PresentState "m" ⟨"m", "m", 4⟩ (by decide),
   C1_dynamic_store_get_or_create.2.2.1 initState "m" 3 (by decide) (by decide),
   C1_dynamic_store_get_or_create.2.2.2.2.2 initState "mg" 3 (by decide) (by decide)⟩

/-! Claim C2: channel-create with Call-Direction=inbound. -/

/-- State of the claim C2 scenario: inbound created = 5, inbound
answered = 2 before the event. -/
def c2State : ModState :=
  { initState with counters := { initState.counters with
      sessionsInboundCreated := 5, sessionsInboundAnswered := 2 } }

/-- An inbound channel-create event. -/
def inboundCreateEvent : Event := ⟨[("Call-Direction", "inbound")]⟩

/-- C2 counterexample: in the claim's own scenario (inbound created = 5,
answered = 2 before the event) the handler divides by the
already-incremented created counter, so the ASR gauge afterwards is
2 / 6 = 1/3, not the claimed 0.4. -/
theorem C2_create_inbound_counterexample :
    (chanCreate c2State inboundCreateEvent).1.gauges.sessionsInboundASR = F64.fin (1 / 3) ∧
    F64.fin (1 / 3) ≠ F64.fin (2 / 5) := by
  constructor
  · simp +decide [chanCreate, Event.header, inboundCreateEvent, c2State, initState, fdivQ]
    norm_num
  · intro h
    rw [F64.fin.injEq] at h
    norm_num at h

/-- C2 amended: a channel-create event with Call-Direction=inbound
increments the global created counter, the inbound created counter and
the inbound active-sessions gauge by 1, and recomputes the inbound ASR
gauge as the inbound answered counter divided by the post-increment
inbound created counter (so the claim's scenario yields 2/6 = 1/3, not
0.4). -/
theorem C2_create_inbound_amended (st : ModState) (e : Event)
    (h : e.header "Call-Direction" = some "inbound") :
    (chanCreate st e).1.counters.sessionsCreated = st.counters.sessionsCreated + 1 ∧
    (chanCreate st e).1.counters.sessionsInboundCreated =
      st.counters.sessionsInboundCreated + 1 ∧
    (chanCreate st e).1.gauges.sessionsActiveInbound =
      F64.add st.gauges.sessionsActiveInbound (F64.fin 1) ∧
    (chanCreate st e).1.gauges.sessionsInboundASR =
      fdivQ st.counters.sessionsInboundAnswered (st.counters.sessionsInboundCreated + 1) := by
  simp [chanCreate, h]

/-- Witness for the amended C2 at the claim's scenario. -/
theorem C2_create_inbound_amended_witness :
    (chanCreate c2State inboundCreateEvent).1.counters.sessionsCreated =
      c2State.counters.sessionsCreated + 1 ∧
    (chanCreate c2State inboundCreateEvent).1.counters.sessionsInboundCreated =
      c2State.counters.sessionsInboundCreated + 1 ∧
    (chanCreate c2State inboundCreateEvent).1.gauges.sessionsActiveInbound =
      F64.add c2State.gauges.sessionsActiveInbound (F64.fin 1) ∧
    (chanCreate c2State inboundCreateEvent).1.gauges.sessionsInboundASR =
      fdivQ c2State.counters.sessionsInboundAnswered
        (c2State.counters.sessionsInboundCreated + 1) :=
  C2_create_inbound_amended c2State inboundCreateEvent (by decide)

/-! Claim C3: zero denominator in the channel-answer ASR computation. -/

/-- An inbound channel-answer event. -/
def inboundAnswerEvent : Event := ⟨[("Call-Direction", "inbound")]⟩

/-- C3: the code at the failing input.  In the post-load state the inbound
created counter is 0; delivering an inbound channel-answer event (answer
before any create, which out-of-order delivery permits) makes the handler
compute answered / created = 1 / 0 with no guard, so the inbound ASR gauge
is set to +infinity — an invalid numeric value, not a skipped update or a
defined zero/undefined result. -/
theorem C3_answer_asr_zero_denominator_unguarded :
    initState.counters.sessionsInboundCreated = 0 ∧
    (chanAnswer initState inboundAnswerEvent).1.gauges.sessionsInboundASR = F64.pinf := by
  constructor
  · rfl
  · simp +decide [chanAnswer, Event.header, inboundAnswerEvent, initState, fdivQ]

/-! Claim C4: the ACD gauge after channel-hangup-complete. -/

/-- Exactness of the u64 cast on whole-numbered counter values. -/
theorem ratToU64_natCast (m : ℕ) : ratToU64 (m : ℚ) = m := by
  simp [ratToU64]

theorem ratToU64_add_natCast (a b : ℕ) : ratToU64 ((a : ℚ) + (b : ℚ)) = a + b := by
  rw [← Nat.cast_add]
  exact ratToU64_natCast _

theorem ratToU64_natCast_add_one (a : ℕ) : ratToU64 ((a : ℚ) + 1) = a + 1 := by
  rw [show (a : ℚ) + 1 = ((a + 1 : ℕ) : ℚ) by push_cast; ring]
  exact ratToU64_natCast _

/-- State of the C4 counterexample: one completed outbound hangup already
counted, zero total duration. -/
def c4State : ModState :=
  { initState with counters := { initState.counters with
      sessionsOutboundCallHangupComplete := 1 } }

/-- An outbound hangup-complete event with 3 billed seconds. -/
def c4Event : Event :=
  ⟨[("Hangup-Cause", "NORMAL_CLEARING"), ("Call-Direction", "outbound"),
    ("variable_billsec", "3")]⟩

/-- C4 counterexample: after the event the outbound totals are 3 seconds
over 2 completed hangups, but the handler computes the ACD with u64
integer division, so the gauge holds 1, not the exact quotient 3/2. -/
theorem C4_acd_exact_quotient_counterexample :
    (chanHangupComplete c4State c4Event).1.counters.sessionsOutboundCallDurationTotal = 3 ∧
    (chanHangupComplete c4State c4Event).1.counters.sessionsOutboundCallHangupComplete = 2 ∧
    (chanHangupComplete c4State c4Event).1.gauges.sessionsOutboundACD = F64.fin 1 ∧
    F64.fin (1 : ℚ) ≠ F64.fin ((3 : ℚ) / 2) := by
  refine ⟨?_, ?_, ?_, ?_⟩
  · simp +decide [chanHangupComplete, Event.header, c4Event, c4State, initState, parseU64, natOfDigits]
  · simp +decide [chanHangupComplete, Event.header, c4Event, c4State, initState, parseU64, natOfDigits]
    norm_num
  · simp +decide [chanHangupComplete, Event.header, c4Event, c4State, initState, parseU64,
      natOfDigits, ratToU64]
  · intro h
    rw [F64.fin.injEq] at h
    norm_num at h

/-- C4 amended: after a successfully processed channel-hangup-complete
event (cause NORMAL_CLEARING, billsec parsing to n, direction outbound or
inbound, prior counters whole numbers d and k), the direction's duration
total becomes d + n, its hangup-complete count becomes k + 1, and its ACD
gauge becomes the integer-truncated quotient (d + n) / (k + 1), not the
exact one; the claim's own instance (n = 30, d = k = 0 giving ACD 30) is
unaffected by the truncation. -/
theorem C4_acd_amended :
    (∀ (st : ModState) (e : Event) (s : String) (n d k : ℕ),
       e.header "Hangup-Cause" = some "NORMAL_CLEARING" →
       e.header "variable_billsec" = some s →
       parseU64 s = some n →
       e.header "Call-Direction" = some "outbound" →
       st.counters.sessionsOutboundCallDurationTotal = (d : ℚ) →
       st.counters.sessionsOutboundCallHangupComplete = (k : ℚ) →
       (chanHangupComplete st e).1.counters.sessionsOutboundCallDurationTotal = (d : ℚ) + (n : ℚ) ∧
       (chanHangupComplete st e).1.counters.sessionsOutboundCallHangupComplete = (k : ℚ) + 1 ∧
       (chanHangupComplete st e).1.gauges.sessionsOutboundACD =
         F64.fin (((d + n) / (k + 1) : ℕ) : ℚ)) ∧
    (∀ (st : ModState) (e : Event) (s : String) (n d k : ℕ),
       e.header "Hangup-Cause" = some "NORMAL_CLEARING" →
       e.header "variable_billsec" = some s →
       parseU64 s = some n →
       e.header "Call-Direction" = some "inbound" →
       st.counters.sessionsInboundCallDurationTotal = (d : ℚ) →
       st.counters.sessionsInboundCallHangupComplete = (k : ℚ) →
       (chanHangupComplete st e).1.counters.sessionsInboundCallDurationTotal = (d : ℚ) + (n : ℚ) ∧
       (chanHangupComplete st e).1.counters.sessionsInboundCallHangupComplete = (k : ℚ) + 1 ∧
       (chanHangupComplete st e).1.gauges.sessionsInboundACD =
         F64.fin (((d + n) / (k + 1) : ℕ) : ℚ)) := by
  constructor
  · intro st e s n d k hc hb hp hd hdur hcnt
    simp [chanHangupComplete, hc, hb, hp, hd, hdur, hcnt, ratToU64_add_natCast,
      ratToU64_natCast_add_one]
  · intro st e s n d k hc hb hp hd hdur hcnt
    simp [chanHangupComplete, hc, hb, hp, hd, hdur, hcnt, ratToU64_add_natCast,
      ratToU64_natCast_add_one]

/-- An outbound hangup-complete event with 30 billed seconds (the claim's
instance). -/
def c4WitnessEvent : Event :=
  ⟨[("Hangup-Cause", "NORMAL_CLEARING"), ("Call-Direction", "outbound"),
    ("variable_billsec", "30")]⟩

/-- Witness for the amended C4 at the claim's instance: billsec = 30,
direction outbound, both prior values 0; the total becomes 30, the count
1 and the ACD gauge 30. -/
theorem C4_acd_amended_witness :
    (chanHangupComplete initState c4WitnessEvent).1.counters.sessionsOutboundCallDurationTotal =
      ((0 : ℕ) : ℚ) + ((30 : ℕ) : ℚ) ∧
    (chanHangupComplete initState c4WitnessEvent).1.counters.sessionsOutboundCallHangupComplete =
      ((0 : ℕ) : ℚ) + 1 ∧
    (chanHangupComplete initState c4WitnessEvent).1.gauges.sessionsOutboundACD =
      F64.fin (((0 + 30) / (0 + 1) : ℕ) : ℚ) :=
  C4_acd_amended.1 initState c4WitnessEvent "30" 30 0 0
    (by decide) (by decide) (by decide) (by decide) rfl rfl

/-! Claim C8: which hangup counter a channel-hangup event increments. -/

/-- A channel-hangup event whose direction header is neither inbound nor
outbound. -/
def c8Event : Event := ⟨[("Call-Direction", "sideways")]⟩

/-- C8 counterexample: the first block of the hangup handler has a bare
else branch, so a present Call-Direction of "sideways" increments the
outbound hangup counter, where the claim says no hangup counter may
change. -/
theorem C8_hangup_direction_counterexample :
    initState.counters.sessionsOutboundCallHangup = 0 ∧
    (chanHangup initState c8Event).1.counters.sessionsOutboundCallHangup = 1 ∧
    (1 : ℚ) ≠ 0 := by
  refine ⟨rfl, ?_, by norm_num⟩
  simp +decide [chanHangup, Event.header, c8Event, initState]

/-- C8 amended: a channel-hangup event increments the inbound hangup
counter when Call-Direction equals "inbound", and the outbound hangup
counter for every other present Call-Direction value (not only
"outbound"); when the header is absent neither hangup counter changes. -/
theorem C8_hangup_direction_amended (st : ModState) (e : Event) :
    (e.header "Call-Direction" = some "inbound" →
       (chanHangup st e).1.counters.sessionsInboundCallHangup =
         st.counters.sessionsInboundCallHangup + 1 ∧
       (chanHangup st e).1.counters.sessionsOutboundCallHangup =
         st.counters.sessionsOutboundCallHangup) ∧
    (∀ d : String, e.header "Call-Direction" = some d → d ≠ "inbound" →
       (chanHangup st e).1.counters.sessionsOutboundCallHangup =
         st.counters.sessionsOutboundCallHangup + 1 ∧
       (chanHangup st e).1.counters.sessionsInboundCallHangup =
         st.counters.sessionsInboundCallHangup) ∧
    (e.header "Call-Direction" = none →
       (chanHangup st e).1.counters.sessionsOutboundCallHangup =
         st.counters.sessionsOutboundCallHangup ∧
       (chanHangup st e).1.counters.sessionsInboundCallHangup =
         st.counters.sessionsInboundCallHangup) := by
  refine ⟨?_, ?_, ?_⟩
  · intro h
    rcases h2 : e.header "Caller-Channel-Answered-Time" with _ | ts
    · simp [chanHangup, h, h2]
    · rcases h3 : parseI64 ts with _ | z
      · simp [chanHangup, h, h2, h3]
      · by_cases hz : z = 0 <;> simp [chanHangup, h, h2, h3, hz]
  · intro d h hd
    rcases h2 : e.header "Caller-Channel-Answered-Time" with _ | ts
    · simp [chanHangup, h, h2, hd]
    · rcases h3 : parseI64 ts with _ | z
      · simp [chanHangup, h, h2, h3, hd]
      · by_cases hz : z = 0 <;> by_cases hdo : d = "outbound" <;>
          simp [chanHangup, h, h2, h3, hz, hd, hdo]
  · intro h
    rcases h2 : e.header "Caller-Channel-Answered-Time" with _ | ts
    · simp [chanHangup, h, h2]
    · rcases h3 : parseI64 ts with _ | z
      · simp [chanHangup, h, h2, h3]
      · by_cases hz : z = 0 <;> simp [chanHangup, h, h2, h3, hz]

/-- Witness for the amended C8: a "sideways" direction bumps the outbound
hangup counter and leaves the inbound one alone. -/
theorem C8_hangup_direction_amended_witness :
    (chanHangup initState c8Event).1.counters.sessionsOutboundCallHangup =
      initState.counters.sessionsOutboundCallHangup + 1 ∧
    (chanHangup initState c8Event).1.counters.sessionsInboundCallHangup =
      initState.counters.sessionsInboundCallHangup :=
  (C8_hangup_direction_amended initState c8Event).2.1 "sideways" (by decide) (by decide)

/-! Claim C6: hangup-complete with a missing or unparseable billsec. -/

/-- A hangup-complete event whose cause is present but not NORMAL_CLEARING
and whose variable_billsec header is absent. -/
def c6Event : Event := ⟨[("Hangup-Cause", "ORIGINATOR_CANCEL")]⟩

/-- C6 counterexample: for a hangup-complete event with Hangup-Cause
ORIGINATOR_CANCEL and no variable_billsec header, the state is unchanged
as claimed, but no error is reported (the handler logs only the INFO and
NOTICE lines, because the billsec branch is only reached under
NORMAL_CLEARING), contradicting the claim's "reports an error" for every
event with a missing billsec. -/
theorem C6_hangup_complete_frame_counterexample :
    c6Event.header "variable_billsec" = none ∧
    (chanHangupComplete initState c6Event).1 = initState ∧
    (chanHangupComplete initState c6Event).2 = [LogLevel.info, LogLevel.notice] ∧
    LogLevel.error ∉ [LogLevel.info, LogLevel.notice] := by
  exact ⟨by decide, rfl, rfl, by decide⟩

/-- C6 amended: for every channel-hangup-complete event whose
variable_billsec header is missing or does not parse as an unsigned
integer, every counter and gauge is left unchanged; an error is reported
when the Hangup-Cause header is missing or equals NORMAL_CLEARING (when a
different cause is present the billsec branch is never reached and no
error is reported). -/
theorem C6_hangup_complete_frame_amended (st : ModState) (e : Event)
    (hb : e.header "variable_billsec" = none ∨
          ∃ s, e.header "variable_billsec" = some s ∧ parseU64 s = none) :
    (chanHangupComplete st e).1 = st ∧
    ((e.header "Hangup-Cause" = none ∨ e.header "Hangup-Cause" = some "NORMAL_CLEARING") →
       LogLevel.error ∈ (chanHangupComplete st e).2) := by
  rcases hc : e.header "Hangup-Cause" with _ | cause
  · simp [chanHangupComplete, hc]
  · by_cases hn : cause = "NORMAL_CLEARING"
    · subst hn
      rcases hb with hb | ⟨s, hs, hp⟩
      · simp [chanHangupComplete, hc, hb]
      · simp [chanHangupComplete, hc, hs, hp]
    · constructor
      · simp [chanHangupComplete, hc, hn]
      · intro hcause
        rcases hcause with h | h
        · exact Option.noConfusion h
        · exact absurd (Option.some.inj h) hn

/-- A NORMAL_CLEARING hangup-complete event with an unparseable billsec. -/
def c6WitnessEvent : Event :=
  ⟨[("Hangup-Cause", "NORMAL_CLEARING"), ("Call-Direction", "outbound"),
    ("variable_billsec", "abc")]⟩

/-- Witness for the amended C6: unparseable billsec under NORMAL_CLEARING
leaves the state unchanged and reports an error. -/
theorem C6_hangup_complete_frame_amended_witness :
    (chanHangupComplete initState c6WitnessEvent).1 = initState ∧
    LogLevel.error ∈ (chanHangupComplete initState c6WitnessEvent).2 := by
  have h := C6_hangup_complete_frame_amended initState c6WitnessEvent
    (Or.inr ⟨"abc", by decide, by decide⟩)
  exact ⟨h.1, h.2 (Or.inr (by decide))⟩

/-! Claim C7: the metric command argument grammar. -/

theorem splitChar_ne_nil (sep : Char) : ∀ cs, splitChar sep cs ≠ [] := by
  intro cs
  induction cs with
  | nil => simp [splitChar]
  | cons c rest ih =>
    simp only [splitChar]
    split
    · simp
    · split
      · simp
      · simp

theorem rsplit_ne_nil (s : String) : rsplit s ≠ [] := by
  unfold rsplit
  simp [splitChar_ne_nil]

/-- C7 counterexample: the split is on single space characters, not on
whitespace runs — for the command "a  3" (two spaces) the second token is
the empty string, so instead of reading name "a" and value 3 the command
reports an error, fails, and mutates nothing. -/
theorem C7_parse_args_counterexample :
    rsplit "a  3" = ["a", "", "3"] ∧
    parse_metric_api_args (some "a  3") = (none, [ApiWrite.invalidValue]) ∧
    counter_increment_api (some "a  3") initState =
      (initState, FsStatus.fail, [ApiWrite.invalidValue]) ∧
    ((none : Option (String × ℚ)), [ApiWrite.invalidValue]) ≠
      (some (("a" : String), (3 : ℚ)), ([] : List ApiWrite)) := by
  exact ⟨by decide, rfl, rfl, by decide⟩

/-- C7 amended: the command string is split on single space characters
(not general whitespace); the first chunk is the metric name and the
optional second chunk is a decimal value defaulting to 1 when there is
only one chunk; when a second chunk exists but does not parse as a
number (including the empty chunk produced by consecutive spaces), an
error is reported back to the caller, all four metric commands return
failure, and no metric is created or mutated. -/
theorem C7_parse_args_amended (cmd : String) :
    ((rsplit cmd).length ≤ 1 →
       parse_metric_api_args (some cmd) = (some ((rsplit cmd).headD "", 1), [])) ∧
    (∀ (n v : String) (rest : List String) (q : ℚ),
       rsplit cmd = n :: v :: rest → parseDecF64 v = some q →
       parse_metric_api_args (some cmd) = (some (n, q), [])) ∧
    (∀ (n v : String) (rest : List String),
       rsplit cmd = n :: v :: rest → parseDecF64 v = none →
       parse_metric_api_args (some cmd) = (none, [ApiWrite.invalidValue]) ∧
       ∀ st : ModState,
         counter_increment_api (some cmd) st = (st, FsStatus.fail, [ApiWrite.invalidValue]) ∧
         gauge_set_api (some cmd) st = (st, FsStatus.fail, [ApiWrite.invalidValue]) ∧
         gauge_increment_api (some cmd) st = (st, FsStatus.fail, [ApiWrite.invalidValue]) ∧
         gauge_decrement_api (some cmd) st = (st, FsStatus.fail, [ApiWrite.invalidValue])) := by
  refine ⟨?_, ?_, ?_⟩
  · intro hlen
    rcases hl : rsplit cmd with _ | ⟨n, tail⟩
    · exact absurd hl (rsplit_ne_nil cmd)
    · rcases tail with _ | ⟨v, rest⟩
      · simp [parse_metric_api_args, hl]
      · rw [hl] at hlen
        simp at hlen
  · intro n v rest q hl hq
    simp [parse_metric_api_args, hl, hq]
  · intro n v rest hl hq
    have hp : parse_metric_api_args (some cmd) = (none, [ApiWrite.invalidValue]) := by
      simp [parse_metric_api_args, hl, hq]
    exact ⟨hp, fun st =>
      ⟨by simp [counter_increment_api, hp],
       by simp [gauge_set_api, hp],
       by simp [gauge_increment_api, hp],
       by simp [gauge_decrement_api, hp]⟩⟩

/-- Witness for the amended C7: "x abc" has an unparseable value token,
so every command fails without mutating the state; "x 3.5" parses to
name "x" and value 3.5; the bare "x" defaults the value to 1. -/
theorem C7_parse_args_amended_witness :
    parse_metric_api_args (some "x abc") = (none, [ApiWrite.invalidValue]) ∧
    counter_increment_api (some "x abc") initState =
      (initState, FsStatus.fail, [ApiWrite.invalidValue]) ∧
    gauge_set_api (some "x abc") initState =
      (initState, FsStatus.fail, [ApiWrite.invalidValue]) ∧
    parse_metric_api_args (some "x 3.5") = (some ("x", 7 / 2), []) ∧
    parse_metric_api_args (some "x") = (some ("x", 1), []) := by
  have hbad := (C7_parse_args_amended "x abc").2.2 "x" "abc" [] (by decide) (by decide)
  have hgood := (C7_parse_args_amended "x 3.5").2.1 "x" "3.5" [] (7 / 2) (by decide)
    (by rw [parseDecF64, show parseDecParts "3.5" = some ⟨false, 3, 5, 1, 0⟩ from by decide]
        norm_num [DecParts.toRat])
  have hone := (C7_parse_args_amended "x").1 (by decide)
  exact ⟨hbad.1, (hbad.2 initState).1, (hbad.2 initState).2.1, hgood, hone⟩

/-! Claim C10: leading-space command strings and the empty metric name. -/

/-- Unfolding of parse_metric_api_args on a non-null command string. -/
theorem parse_args_eq (s : String) :
    parse_metric_api_args (some s) =
      (match rsplit s with
       | [] => (none, [ApiWrite.invalidArgs])
       | [name] => (some (name, 1), [])
       | name :: v :: _ =>
         match parseDecF64 v with
         | some q => (some (name, q), [])
         | none => (none, [ApiWrite.invalidValue])) := rfl

/-- C10: the command split accepts the first chunk as the metric name with
no validation, so any command string starting with a space parses to the
empty metric name; the counter command then creates and registers a
counter whose name and help are both empty, and the gauge commands do the
same with a gauge. -/
theorem C10_empty_metric_name (cmd : String) (h : ∃ r, cmd.data = ' ' :: r) :
    (∀ (n : String) (v : ℚ) (ws : List ApiWrite),
       parse_metric_api_args (some cmd) = (some (n, v), ws) → n = "") ∧
    (∀ (st : ModState) (v : ℚ),
       parse_metric_api_args (some cmd) = (some ("", v), []) →
       List.lookup "" st.userCounters = none →
       List.lookup "" (counter_increment_api (some cmd) st).1.userCounters =
         some ⟨"", "", v⟩ ∧
       (counter_increment_api (some cmd) st).1.regCounters = st.regCounters ++ [""]) ∧
    (∀ (st : ModState) (v : ℚ),
       parse_metric_api_args (some cmd) = (some ("", v), []) →
       List.lookup "" st.userGauges = none →
       List.lookup "" (gauge_set_api (some cmd) st).1.userGauges =
         some ⟨"", "", F64.fin v⟩ ∧
       (gauge_set_api (some cmd) st).1.regGauges = st.regGauges ++ [""]) := by
  have hs : ∃ t, rsplit cmd = "" :: t := by
    obtain ⟨r, hr⟩ := h
    refine ⟨(splitChar ' ' r).map (fun l => ⟨l⟩), ?_⟩
    unfold rsplit
    rw [hr]
    simp [splitChar]
  obtain ⟨t, ht⟩ := hs
  refine ⟨?_, ?_, ?_⟩
  · intro n v ws hp
    rw [parse_args_eq cmd, ht] at hp
    rcases t with _ | ⟨v', rest⟩
    · simp at hp
      exact hp.1.1.symm
    · rcases hq : parseDecF64 v' with _ | q <;> simp [hq] at hp
      exact hp.1.1.symm
  · intro st v hp hlk
    simp [counter_increment_api, hp, get_or_create_counter, hlk, updateUC, List.lookup]
  · intro st v hp hlk
    simp [gauge_set_api, hp, gauge_get, hlk, updateUG, List.lookup]

/-- Witness for C10 with the command " 2": an empty-named counter with
value 2 (and an empty-named gauge set to 2) is created and registered. -/
theorem C10_empty_metric_name_witness :
    List.lookup "" (counter_increment_api (some " 2") initState).1.userCounters =
      some ⟨"", "", 2⟩ ∧
    (counter_increment_api (some " 2") initState).1.regCounters =
      initState.regCounters ++ [""] ∧
    List.lookup "" (gauge_set_api (some " 2") initState).1.userGauges =
      some ⟨"", "", F64.fin 2⟩ ∧
    (gauge_set_api (some " 2") initState).1.regGauges =
      initState.regGauges ++ [""] := by
  have hp : parse_metric_api_args (some " 2") = (some ("", 2), []) := by
    have h2 : parseDecF64 "2" = some 2 := by
      rw [parseDecF64, show parseDecParts "2" = some ⟨false, 2, 0, 0, 0⟩ from by decide]
      norm_num [DecParts.toRat]
    simp [parse_metric_api_args, show rsplit " 2" = ["", "2"] from by decide, h2]
  have hc := (C10_empty_metric_name " 2" ⟨['2'], rfl⟩).2.1 initState 2 hp (by decide)
  have hg := (C10_empty_metric_name " 2" ⟨['2'], rfl⟩).2.2 initState 2 hp (by decide)
  exact ⟨hc.1, hc.2, hg.1, hg.2⟩

/-! Claim C5: counter values under the program's interfaces. -/

/-- The state effect of one successful counter_increment command with the
given parsed name and value (the API's success path). -/
def counterCall (name : String) (v : ℚ) (st : ModState) : ModState :=
  let p := get_or_create_counter name st
  { p.2 with userCounters := updateUC name (p.1.value + v) p.2.userCounters }

/-- A sequence of successful counter_increment commands on one name. -/
def counterCalls (name : String) (vs : List ℚ) (st : ModState) : ModState :=
  vs.foldl (fun s v => counterCall name v s) st

/-- The value of the named user counter, 0 when absent. -/
def userCounterValue (name : String) (st : ModState) : ℚ :=
  match List.lookup name st.userCounters with
  | some c => c.value
  | none => 0

theorem lookup_updateUC_self (name : String) (v : ℚ) :
    ∀ l : List (String × UCounter),
      List.lookup name (updateUC name v l) =
        (List.lookup name l).map (fun c => { c with value := v }) := by
  intro l
  induction l with
  | nil => simp [updateUC]
  | cons p r ih =>
    obtain ⟨k, c⟩ := p
    by_cases hk : k = name
    · subst hk
      simp [updateUC, List.lookup]
    · have hbk : (name == k) = false := beq_eq_false_iff_ne.mpr (Ne.symm hk)
      simp [updateUC, hk, List.lookup, hbk, ih]

theorem counterCall_lookup (name : String) (v : ℚ) (st : ModState) :
    List.lookup name (counterCall name v st).userCounters =
      some ⟨name, name,
        (match List.lookup name st.userCounters with
         | some c => c.value
         | none => 0) + v⟩ ∨
    ∃ c : UCounter, List.lookup name st.userCounters = some c ∧
      List.lookup name (counterCall name v st).userCounters =
        some { c with value := c.value + v } := by
  rcases h : List.lookup name st.userCounters with _ | c
  · left
    rw [counterCall, goc_counter_of_none h]
    simp [updateUC, List.lookup, h]
  · right
    refine ⟨c, rfl, ?_⟩
    rw [counterCall, goc_counter_of_some h]
    simp [lookup_updateUC_self, h]

/-- After one call the looked-up value grows by exactly v. -/
theorem counterCall_value (name : String) (v : ℚ) (st : ModState) :
    userCounterValue name (counterCall name v st) = userCounterValue name st + v := by
  rcases counterCall_lookup name v st with h | ⟨c, hc, h⟩
  · rw [userCounterValue, h, userCounterValue]
  · rw [userCounterValue, h, userCounterValue, hc]

/-- The value after a call sequence is the start value plus the sum of the
applied deltas. -/
theorem counterCalls_value (name : String) (vs : List ℚ) (st : ModState) :
    userCounterValue name (counterCalls name vs st) =
      userCounterValue name st + vs.sum := by
  induction vs generalizing st with
  | nil => simp [counterCalls]
  | cons v vs ih =>
    have : counterCalls name (v :: vs) st = counterCalls name vs (counterCall name v st) := rfl
    rw [this, ih, counterCall_value, List.sum_cons]
    ring

/-- The API state effect on a successfully parsed command is a
counterCall. -/
theorem counter_api_eq_call (cmd name : String) (v : ℚ) (st : ModState)
    (hp : parse_metric_api_args (some cmd) = (some (name, v), [])) :
    (counter_increment_api (some cmd) st).1 = counterCall name v st := by
  simp [counter_increment_api, hp, counterCall]

/-- C5 counterexample: the counter_increment command accepts a negative
value argument (the spec's Counter contract says the primitive accepts
the delta unchecked), so two commands "c 5" then "c -3" drive the user
counter "c" from 5 down to 2 — a Counter reachable through the program's
interfaces whose value decreases. -/
theorem C5_counter_monotonic_counterexample :
    userCounterValue "c" (counter_increment_api (some "c 5") initState).1 = 5 ∧
    userCounterValue "c"
      (counter_increment_api (some "c -3")
        (counter_increment_api (some "c 5") initState).1).1 = 2 ∧
    (2 : ℚ) < 5 := by
  have h5 : parseDecF64 "5" = some 5 := by
    rw [parseDecF64, show parseDecParts "5" = some ⟨false, 5, 0, 0, 0⟩ from by decide]
    norm_num [DecParts.toRat]
  have hm3 : parseDecF64 "-3" = some (-3) := by
    rw [parseDecF64, show parseDecParts "-3" = some ⟨true, 3, 0, 0, 0⟩ from by decide]
    norm_num [DecParts.toRat]
  have hp1 : parse_metric_api_args (some "c 5") = (some ("c", 5), []) := by
    simp [parse_args_eq, show rsplit "c 5" = ["c", "5"] from by decide, h5]
  have hp2 : parse_metric_api_args (some "c -3") = (some ("c", -3), []) := by
    simp [parse_args_eq, show rsplit "c -3" = ["c", "-3"] from by decide, hm3]
  have h0 : userCounterValue "c" initState = 0 := rfl
  rw [counter_api_eq_call _ _ _ _ hp1, counter_api_eq_call _ _ _ _ hp2]
  refine ⟨?_, ?_, by norm_num⟩
  · rw [counterCall_value, h0]
    norm_num
  · rw [counterCall_value, counterCall_value, h0]
    norm_num

/-- C5 amended: through the program's interfaces a user counter's value
always equals the sum of the applied deltas, and it never decreases as
long as every applied delta is non-negative; but the counter_increment
command passes any parsed decimal (including negative ones) straight to
increment_by, so counters are not monotonic in general. -/
theorem C5_counter_value_amended :
    (∀ (cmd name : String) (v : ℚ) (st : ModState),
       parse_metric_api_args (some cmd) = (some (name, v), []) →
       (counter_increment_api (some cmd) st).1 = counterCall name v st) ∧
    (∀ (name : String) (vs : List ℚ) (st : ModState),
       List.lookup name st.userCounters = none →
       userCounterValue name (counterCalls name vs st) = vs.sum) ∧
    (∀ (name : String) (vs : List ℚ) (st : ModState),
       (∀ v ∈ vs, 0 ≤ v) → ∀ i : ℕ,
       userCounterValue name (counterCalls name (vs.take i) st) ≤
         userCounterValue name (counterCalls name (vs.take (i + 1)) st)) := by
  refine ⟨counter_api_eq_call, ?_, ?_⟩
  · intro name vs st h
    rw [counterCalls_value]
    simp [userCounterValue, h]
  · intro name vs st hnn i
    rw [counterCalls_value, counterCalls_value]
    apply add_le_add_left
    rw [List.take_succ, List.sum_append]
    apply le_add_of_nonneg_right
    rcases hg : vs[i]? with _ | a
    · simp
    · simp only [Option.toList, List.sum_cons, List.sum_nil, add_zero]
      exact hnn a (List.getElem?_mem hg)

/-- Witness for the amended C5: command "c 5" is one counterCall; two
calls of 5 and 3 on a fresh name sum to 8; and with non-negative deltas
the value does not decrease from one call to the next. -/
theorem C5_counter_value_amended_witness :
    (counter_increment_api (some "c 5") initState).1 = counterCall "c" 5 initState ∧
    userCounterValue "m" (counterCalls "m" [5, 3] initState) = ([5, 3] : List ℚ).sum ∧
    userCounterValue "m" (counterCalls "m" (([5, 3] : List ℚ).take 0) initState) ≤
      userCounterValue "m" (counterCalls "m" (([5, 3] : List ℚ).take 1) initState) := by
  have h5 : parseDecF64 "5" = some 5 := by
    rw [parseDecF64, show parseDecParts "5" = some ⟨false, 5, 0, 0, 0⟩ from by decide]
    norm_num [DecParts.toRat]
  have hp1 : parse_metric_api_args (some "c 5") = (some ("c", 5), []) := by
    simp [parse_args_eq, show rsplit "c 5" = ["c", "5"] from by decide, h5]
  exact ⟨C5_counter_value_amended.1 "c 5" "c" 5 initState hp1,
    C5_counter_value_amended.2.1 "m" [5, 3] initState (by decide),
    C5_counter_value_amended.2.2 "m" [5, 3] initState (by norm_num) 0⟩

/-! Claim C9: the created-counter increment precedes the ASR division in
the channel-create handler.  The denominator of that division is the
directional created counter right after its increment; on reachable
states it is at least 1, so the division is never by zero. -/

theorem counter_api_counters_frame (cmd : Option String) (st : ModState) :
    (counter_increment_api cmd st).1.counters = st.counters := by
  rcases hp : parse_metric_api_args cmd with ⟨o, ws⟩
  rcases o with _ | ⟨name, val⟩
  · simp [counter_increment_api, hp]
  · rcases h : List.lookup name st.userCounters with _ | c
    · simp [counter_increment_api, hp, goc_counter_of_none h]
    · simp [counter_increment_api, hp, goc_counter_of_some h]

theorem gauge_set_api_counters_frame (cmd : Option String) (st : ModState) :
    (gauge_set_api cmd st).1.counters = st.counters := by
  rcases hp : parse_metric_api_args cmd with ⟨o, ws⟩
  rcases o with _ | ⟨name, val⟩
  · simp [gauge_set_api, hp]
  · rcases h : List.lookup name st.userGauges with _ | c
    · simp [gauge_set_api, hp, goc_gauge_of_none h]
    · simp [gauge_set_api, hp, goc_gauge_of_some h]

theorem gauge_increment_api_counters_frame (cmd : Option String) (st : ModState) :
    (gauge_increment_api cmd st).1.counters = st.counters := by
  rcases hp : parse_metric_api_args cmd with ⟨o, ws⟩
  rcases o with _ | ⟨name, val⟩
  · simp [gauge_increment_api, hp]
  · rcases h : List.lookup name st.userGauges with _ | c
    · simp [gauge_increment_api, hp, goc_gauge_of_none h]
    · simp [gauge_increment_api, hp, goc_gauge_of_some h]

theorem gauge_decrement_api_counters_frame (cmd : Option String) (st : ModState) :
    (gauge_decrement_api cmd st).1.counters = st.counters := by
  rcases hp : parse_metric_api_args cmd with ⟨o, ws⟩
  rcases o with _ | ⟨name, val⟩
  · simp [gauge_decrement_api, hp]
  · rcases h : List.lookup name st.userGauges with _ | c
    · simp [gauge_decrement_api, hp, goc_gauge_of_none h]
    · simp [gauge_decrement_api, hp, goc_gauge_of_some h]

theorem gauge_increment_app_counters_frame (data : Option String) (st : ModState) :
    (gauge_increment_app data st).counters = st.counters := by
  rcases hp : parse_metric_api_args data with ⟨o, ws⟩
  rcases o with _ | ⟨name, val⟩
  · simp [gauge_increment_app, hp]
  · rcases h : List.lookup name st.userGauges with _ | c
    · simp [gauge_increment_app, hp, goc_gauge_of_none h]
    · simp [gauge_increment_app, hp, goc_gauge_of_some h]

theorem chanCreate_created_mono (st : ModState) (e : Event) :
    st.counters.sessionsInboundCreated ≤
      (chanCreate st e).1.counters.sessionsInboundCreated ∧
    st.counters.sessionsOutboundCreated ≤
      (chanCreate st e).1.counters.sessionsOutboundCreated := by
  rcases hd : e.header "Call-Direction" with _ | d
  · simp [chanCreate, hd]
  · by_cases h1 : d = "inbound" <;> by_cases h2 : d = "outbound" <;>
      simp [chanCreate, hd, h1, h2] <;> constructor <;> linarith

theorem chanAnswer_created_frame (st : ModState) (e : Event) :
    (chanAnswer st e).1.counters.sessionsInboundCreated =
      st.counters.sessionsInboundCreated ∧
    (chanAnswer st e).1.counters.sessionsOutboundCreated =
      st.counters.sessionsOutboundCreated := by
  rcases hd : e.header "Call-Direction" with _ | d
  · simp [chanAnswer, hd]
  · by_cases h1 : d = "inbound" <;> by_cases h2 : d = "outbound" <;>
      simp [chanAnswer, hd, h1, h2]

theorem chanHangup_created_frame (st : ModState) (e : Event) :
    (chanHangup st e).1.counters.sessionsInboundCreated =
      st.counters.sessionsInboundCreated ∧
    (chanHangup st e).1.counters.sessionsOutboundCreated =
      st.counters.sessionsOutboundCreated := by
  unfold chanHangup
  repeat' split
  all_goals simp

theorem chanHangupComplete_created_frame (st : ModState) (e : Event) :
    (chanHangupComplete st e).1.counters.sessionsInboundCreated =
      st.counters.sessionsInboundCreated ∧
    (chanHangupComplete st e).1.counters.sessionsOutboundCreated =
      st.counters.sessionsOutboundCreated := by
  rcases hc : e.header "Hangup-Cause" with _ | cause
  · simp [chanHangupComplete, hc]
  · by_cases hn : cause = "NORMAL_CLEARING"
    · rcases hb : e.header "variable_billsec" with _ | s
      · simp [chanHangupComplete, hc, hn, hb]
      · rcases hp : parseU64 s with _ | nsec
        · simp [chanHangupComplete, hc, hn, hb, hp]
        · by_cases ho : (e.header "Call-Direction").getD "" = "outbound" <;>
            by_cases hi : (e.header "Call-Direction").getD "" = "inbound" <;>
            simp [chanHangupComplete, hc, hn, hb, hp, ho, hi]
    · simp [chanHangupComplete, hc, hn]

theorem chanDestroy_created_frame (st : ModState) (e : Event) :
    (chanDestroy st e).counters.sessionsInboundCreated =
      st.counters.sessionsInboundCreated ∧
    (chanDestroy st e).counters.sessionsOutboundCreated =
      st.counters.sessionsOutboundCreated := by
  unfold chanDestroy
  repeat' split
  all_goals simp

/-- Every interface step can only grow the two directional created
counters. -/
theorem step_created_mono {a b : ModState} (h : Step a b) :
    a.counters.sessionsInboundCreated ≤ b.counters.sessionsInboundCreated ∧
    a.counters.sessionsOutboundCreated ≤ b.counters.sessionsOutboundCreated := by
  cases h with
  | heartbeat => simp [heartbeatHandler]
  | create e => exact chanCreate_created_mono a e
  | answer e =>
    rw [(chanAnswer_created_frame a e).1, (chanAnswer_created_frame a e).2]
    exact ⟨le_refl _, le_refl _⟩
  | hangup e =>
    rw [(chanHangup_created_frame a e).1, (chanHangup_created_frame a e).2]
    exact ⟨le_refl _, le_refl _⟩
  | hangupComplete e =>
    rw [(chanHangupComplete_created_frame a e).1, (chanHangupComplete_created_frame a e).2]
    exact ⟨le_refl _, le_refl _⟩
  | destroy e =>
    rw [(chanDestroy_created_frame a e).1, (chanDestroy_created_frame a e).2]
    exact ⟨le_refl _, le_refl _⟩
  | regAttempt => simp [regAttemptHandler]
  | regFailure => simp [regFailureHandler]
  | regSuccess => simp [regSuccessHandler]
  | unregister => simp [unregisterHandler]
  | counterInc cmd =>
    rw [counter_api_counters_frame cmd a]
    exact ⟨le_refl _, le_refl _⟩
  | gaugeSet cmd =>
    rw [gauge_set_api_counters_frame cmd a]
    exact ⟨le_refl _, le_refl _⟩
  | gaugeInc cmd =>
    rw [gauge_increment_api_counters_frame cmd a]
    exact ⟨le_refl _, le_refl _⟩
  | gaugeDec cmd =>
    rw [gauge_decrement_api_counters_frame cmd a]
    exact ⟨le_refl _, le_refl _⟩
  | gaugeIncApp data =>
    rw [gauge_increment_app_counters_frame data a]
    exact ⟨le_refl _, le_refl _⟩

/-- On every reachable state the directional created counters are
non-negative. -/
theorem reachable_created_nonneg {st : ModState} (h : Reachable st) :
    0 ≤ st.counters.sessionsInboundCreated ∧
    0 ≤ st.counters.sessionsOutboundCreated := by
  induction h with
  | refl => exact ⟨le_refl _, le_refl _⟩
  | tail hr hs ih =>
    have hm := step_created_mono hs
    exact ⟨le_trans ih.1 hm.1, le_trans ih.2 hm.2⟩

/-- C9: in the channel-create handler the directional created counter is
incremented before it is read as the ASR denominator, so on every
reachable state and for either direction the denominator is at least 1,
never zero, and the division produces a finite value (the gauge is set to
the exact finite quotient, never an infinity or NaN). -/
theorem C9_create_asr_denominator_positive (st : ModState) (e : Event)
    (hr : Reachable st) :
    (e.header "Call-Direction" = some "inbound" →
       1 ≤ st.counters.sessionsInboundCreated + 1 ∧
       st.counters.sessionsInboundCreated + 1 ≠ 0 ∧
       (chanCreate st e).1.gauges.sessionsInboundASR =
         F64.fin (st.counters.sessionsInboundAnswered /
           (st.counters.sessionsInboundCreated + 1))) ∧
    (e.header "Call-Direction" = some "outbound" →
       1 ≤ st.counters.sessionsOutboundCreated + 1 ∧
       st.counters.sessionsOutboundCreated + 1 ≠ 0 ∧
       (chanCreate st e).1.gauges.sessionsOutboundASR =
         F64.fin (st.counters.sessionsOutboundAnswered /
           (st.counters.sessionsOutboundCreated + 1))) := by
  have hn := reachable_created_nonneg hr
  constructor
  · intro h
    have h1 : (1 : ℚ) ≤ st.counters.sessionsInboundCreated + 1 := by linarith [hn.1]
    have h0 : st.counters.sessionsInboundCreated + 1 ≠ 0 := by
      intro hz
      rw [hz] at h1
      linarith
    exact ⟨h1, h0, by simp [chanCreate, h, fdivQ, h0]⟩
  · intro h
    have h1 : (1 : ℚ) ≤ st.counters.sessionsOutboundCreated + 1 := by linarith [hn.2]
    have h0 : st.counters.sessionsOutboundCreated + 1 ≠ 0 := by
      intro hz
      rw [hz] at h1
      linarith
    exact ⟨h1, h0, by simp [chanCreate, h, fdivQ, h0]⟩

/-- Witness for C9 at the reachable post-load state and a concrete
inbound create event. -/
theorem C9_create_asr_denominator_positive_witness :
    1 ≤ initState.counters.sessionsInboundCreated + 1 ∧
    initState.counters.sessionsInboundCreated + 1 ≠ 0 ∧
    (chanCreate initState inboundCreateEvent).1.gauges.sessionsInboundASR =
      F64.fin (initState.counters.sessionsInboundAnswered /
        (initState.counters.sessionsInboundCreated + 1)) :=
  (C9_create_asr_denominator_positive initState inboundCreateEvent
    Relation.ReflTransGen.refl).1 (by decide)
